import Mathlib

/-!
Formal model of the Imag_map_dash place-visualization pipeline
(src/app.py and src/sqlite_code.py): batched store retrieval
(DataLayer._execute_batched_query and its callers), aggregation of place
mentions, the render cache (get_cached_map_html / clean_map_cache), the
make_map cache signature and rendered-map content, timeline windowing and
marker-radius computation.  Rows of the two relations are modelled as Lean
structures; SQL queries over a row list are modelled as filters; a query
that would raise in Python is modelled with Option (none = the exception).
-/

set_option maxHeartbeats 1000000

/-- A row of the `places` relation as selected by
DataLayer.get_places_for_dhlabids (src/sqlite_code.py lines 230-241):
dhlabid, token, name as modern_name, freq, lat, lon, feature_class. -/
structure Place where
  dhlabid : ℕ
  token : String
  modern_name : String
  freq : ℕ
  lat : Option ℚ
  lon : Option ℚ
  feature_class : String
  deriving DecidableEq

/-- A row of the `metadata` relation as selected by
DataLayer.get_metadata_for_dhlabids (src/sqlite_code.py lines 257-261). -/
structure Doc where
  dhlabid : ℕ
  title : String
  author : String
  year : ℤ
  urn : String
  deriving DecidableEq

/-- A mention row as returned by ti.geo_locations_corpus in src/app.py
(columns used there: name, token, frekv, latitude, longitude,
feature_class, dhlabid, rank). -/
structure GeoPlace where
  dhlabid : ℕ
  token : String
  name : String
  frekv : ℕ
  latitude : ℚ
  longitude : ℚ
  feature_class : String
  rank : ℕ
  deriving DecidableEq

/-- A row of app.py update_map's aggregation (groupby('name') with token
first, frekv sum, latitude first, longitude first, feature_class first,
dhlabid collected into a list; src/app.py lines 662-671). -/
structure AggPlace where
  name : String
  token : String
  frekv : ℕ
  latitude : ℚ
  longitude : ℚ
  feature_class : String
  dhlabids : List ℕ
  deriving DecidableEq

/-- A row of update_filtered_data's aggregation (src/sqlite_code.py lines
885-894): groupby(['token', 'modern_name', 'feature_class']) with
freq summed into total_mentions and dhlabid nunique into doc_count. -/
structure AggRow where
  token : String
  modern_name : String
  feature_class : String
  total_mentions : ℕ
  doc_count : ℕ
  deriving DecidableEq

/-- One loop iteration's slice id_list[i:i+batch_size] of
DataLayer._execute_batched_query (src/sqlite_code.py line 119-120),
with fuel for termination; `chunkList` supplies fuel = length, enough for
any positive batch size (and the code only ever uses batch_size = 499). -/
def chunkListAux {α : Type _} (n : ℕ) : ℕ → List α → List (List α)
  | _, [] => []
  | 0, _ :: _ => []
  | fuel + 1, x :: xs => (x :: xs.take (n - 1)) :: chunkListAux n fuel (xs.drop (n - 1))

/-- The list of batches `id_list[i:i+batch_size]` for i = 0, batch_size,
2*batch_size, ... of DataLayer._execute_batched_query. -/
def chunkList {α : Type _} (n : ℕ) (l : List α) : List (List α) :=
  chunkListAux n l.length l

/-- DataLayer._execute_batched_query (src/sqlite_code.py lines 113-136):
one query per batch, results concatenated; the pair's second component
counts the queries issued.  `templateSlots` is the number of `\x7b\x7d`
replacement fields in the caller's base_query: `base_query.format(placeholders)`
passes a single replacement value, so a template with two or more slots makes
str.format raise IndexError on the first batch (modelled as none, with zero
queries issued).  With zero batches the loop never runs and pd.concat is
never reached: the function returns a bare, column-less pd.DataFrame()
(modelled as some []). -/
def execute_batched_query {β : Type _} (templateSlots : ℕ) (query : List ℕ → List β)
    (idList : List ℕ) (batchSize : ℕ) : Option (List β) × ℕ :=
  let batches := chunkList batchSize idList
  if batches.isEmpty then (some [], 0)
  else if templateSlots ≤ 1 then (some ((batches.map query).flatten), batches.length)
  else (none, 0)

/-- DataLayer.get_places_for_dhlabids (src/sqlite_code.py lines 222-247):
empty/None dhlabids short-circuit to an empty frame with no query; otherwise
the one-slot base_query `... WHERE dhlabid IN (\x7b\x7d)` is run batched, which is
a per-batch filter of the places relation by dhlabid membership. -/
def get_places_for_dhlabids (db : List Place) (dhlabids : List ℕ) :
    Option (List Place) × ℕ :=
  if dhlabids.isEmpty then (some [], 0)
  else execute_batched_query 1
    (fun b => db.filter (fun r => decide (r.dhlabid ∈ b))) dhlabids 499

/-- DataLayer.get_metadata_for_dhlabids (src/sqlite_code.py lines 249-267):
same batching discipline against the metadata relation, one-slot template. -/
def get_metadata_for_dhlabids (mdb : List Doc) (dhlabids : List ℕ) :
    Option (List Doc) × ℕ :=
  if dhlabids.isEmpty then (some [], 0)
  else execute_batched_query 1
    (fun b => mdb.filter (fun r => decide (r.dhlabid ∈ b))) dhlabids 499

/-- DataLayer.filter_by_places (src/sqlite_code.py lines 203-220).  Empty (or
None) place_tokens return the input dhlabids unchanged, with no query.  With
tokens given, the batched query runs with the two-slot base_query
`... WHERE token IN (\x7b\x7d) AND dhlabid IN (\x7b\x7d)`: for an empty dhlabids there
are zero batches and `['dhlabid']` on the resulting column-less frame raises
KeyError (none); for a nonempty dhlabids, execute_batched_query's
single-argument format raises IndexError on the first batch (none, zero
queries).  The per-batch lambda records the meaning of the query text with
its parameters bound as written (token IN tokens AND dhlabid IN batch,
SELECT DISTINCT dhlabid). -/
def filter_by_places (db : List Place) (dhlabids : List ℕ)
    (place_tokens : List String) : Option (List ℕ) × ℕ :=
  if place_tokens.isEmpty then (some dhlabids, 0)
  else if dhlabids.isEmpty then (none, 0)
  else execute_batched_query 2
    (fun b => ((db.filter (fun r =>
      decide (r.token ∈ place_tokens) && decide (r.dhlabid ∈ b))).map
        Place.dhlabid).dedup)
    dhlabids 499

/-- Modelled from the spec, for the refinement comparison of the batched
retrieval: "the row set of an (idealized) unbounded single query over S" —
one unbounded `WHERE dhlabid IN S` filter of the whole places relation. -/
def unbounded_places_query (db : List Place) (ids : List ℕ) : List Place :=
  db.filter (fun r => decide (r.dhlabid ∈ ids))

/-- The module-level map cache dict; get_cached_map_html (src/app.py lines
44-48, src/sqlite_code.py lines 453-458) as explicit state: on a hit the
stored artifact is returned with the cache unchanged and the render
function not invoked; on a miss the render function runs once, its result
is stored (dict insertion appends) and returned.  The third component
counts invocations of create_map_func in the call. -/
def getCachedMapHtml (cache : List (String × String)) (k : String)
    (fn : Unit → String) : String × List (String × String) × ℕ :=
  match cache.lookup k with
  | some v => (v, cache, 0)
  | none =>
    let a := fn ()
    (a, cache ++ [(k, a)], 1)

/-- clean_map_cache (src/app.py lines 50-53): once the entry count exceeds
10, the whole dict is cleared in one step; otherwise it is left alone. -/
def clean_map_cache (cache : List (String × String)) : List (String × String) :=
  if 10 < cache.length then [] else cache

/-- The cache interaction of one update_map request (src/app.py lines
678-681): make_map runs get_cached_map_html on the request's key, then
clean_map_cache runs on the resulting cache. -/
def requestStep (cache : List (String × String)) (k : String)
    (fn : Unit → String) : List (String × String) :=
  clean_map_cache (getCachedMapHtml cache k fn).2.1

/-- A sequence of update_map requests, threading the cache through
requestStep. -/
def runRequests (keys : List String) (fn : Unit → String)
    (cache : List (String × String)) : List (String × String) :=
  keys.foldl (fun acc k2 => requestStep acc k2 fn) cache

/-- Eleven distinct cache signatures, for the eviction scenario. -/
def elevenKeys : List String :=
  [ "s01", "s02", "s03", "s04", "s05", "s06", "s07", "s08", "s09", "s10", "s11"]

/-- A constant render function standing in for create_map. -/
def exampleRenderFn : Unit → String := fun _ => "map-html"

/-- An eleven-entry cache (one artifact per signature of elevenKeys). -/
def elevenCache : List (String × String) :=
  elevenKeys.map (fun s => (s, "map-html"))

/-- Decimal rendering of a rational, num/den, used only to build the cache
key string deterministically. -/
def ratStr (q : ℚ) : String :=
  toString q.num ++ "/" ++ toString q.den

/-- String form of the center argument as it enters the f-string of the
cache key (None or a [lat, lon] pair). -/
def centerStr (c : Option (ℚ × ℚ)) : String :=
  match c with
  | none => "None"
  | some p => "[" ++ ratStr p.1 ++ ", " ++ ratStr p.2 ++ "]"

/-- String form of the zoom argument as it enters the f-string of the cache
key. -/
def zoomStr (z : Option ℚ) : String :=
  match z with
  | none => "None"
  | some q => ratStr q

/-- The canonical cache signature built by make_map (src/app.py line 57,
src/sqlite_code.py line 357):
f-string of significant_places.shape[0], basemap, marker_size, center, zoom
joined by underscores.  Only the row COUNT of significant_places enters. -/
def cache_key (significant_places : List AggPlace) (basemap : String)
    (marker_size : ℕ) (center : Option (ℚ × ℚ)) (zoom : Option ℚ) : String :=
  toString significant_places.length ++ "_" ++ basemap ++ "_"
    ++ toString marker_size ++ "_" ++ centerStr center ++ "_" ++ zoomStr zoom

/-- The feature_class → colour table of make_map.create_map (src/app.py
lines 108-111). -/
def feature_colors : List (String × String) :=
  [ ( "P", "red"), ( "H", "blue"), ( "T", "green"), ( "L", "orange"),
    ( "A", "purple"), ( "R", "darkred"), ( "S", "darkblue"), ( "V", "darkgreen")]

/-- Colour of a feature class (total on the 8 classes of the table). -/
def featureColor (c : String) : String :=
  (feature_colors.lookup c).getD "gray"

/-- pandas Series.median over exact rationals: middle element of the sorted
values for odd length, mean of the two middle elements for even length
(0 stands for the NaN of an empty series, unreachable in the claims). -/
def median (l : List ℚ) : ℚ :=
  let s := l.insertionSort (fun a b => a ≤ b)
  if s.length = 0 then 0
  else if s.length % 2 = 1 then s.getD (s.length / 2) 0
  else (s.getD (s.length / 2 - 1) 0 + s.getD (s.length / 2) 0) / 2

/-- One circle marker of make_map.create_map (src/app.py lines 122-140) as
information content: location, the frequency that the radius rule is
applied to, tooltip text, colour, and the corpus rows shown in its popup
panel.  The numeric radius is marker_radius frekv markerSize (defined
below over ℝ); the marker carries its two arguments. -/
structure Marker where
  location : ℚ × ℚ
  frekv : ℕ
  tooltip : String
  color : String
  books : List Doc
  deriving DecidableEq

/-- The rendered map of make_map.create_map as information content: every
input that create_map reads flows into these fields, and two equal
RenderedMap values denote the same rendered artifact. -/
structure RenderedMap where
  basemap : String
  center : ℚ × ℚ
  zoom : ℚ
  markerSize : ℕ
  markers : List Marker
  deriving DecidableEq

/-- make_map.create_map (src/app.py lines 98-143): center defaults to the
median of the places' coordinates, zoom to EUROPE_VIEW's 4; one marker per
significant place (the batch-of-50 loop visits every row in order), each
with the corpus rows whose dhlabid is in the place's dhlabid list, the
tooltip f-string, and the feature-class colour. -/
def renderMap (significant_places : List AggPlace) (corpus_df : List Doc)
    (basemap : String) (marker_size : ℕ) (center : Option (ℚ × ℚ))
    (zoom : Option ℚ) : RenderedMap :=
  let centerLat := match center with
    | some c => c.1
    | none => median (significant_places.map AggPlace.latitude)
  let centerLon := match center with
    | some c => c.2
    | none => median (significant_places.map AggPlace.longitude)
  let z := match zoom with
    | some q => q
    | none => 4
  { basemap := basemap
    center := (centerLat, centerLon)
    zoom := z
    markerSize := marker_size
    markers := significant_places.map (fun p =>
      let place_books := corpus_df.filter (fun b => decide (b.dhlabid ∈ p.dhlabids))
      { location := (p.latitude, p.longitude)
        frekv := p.frekv
        tooltip := p.name ++ ": " ++ toString p.frekv ++ " forekomster i "
          ++ toString place_books.length ++ " bøker"
        color := featureColor p.feature_class
        books := place_books }) }

/-- The marker radius rule of make_map.create_map (src/app.py line 128,
src/sqlite_code.py line 402): min(6 + log(frequency) * marker_size, 60). -/
noncomputable def marker_radius (freq markerSize : ℝ) : ℝ :=
  min (6 + Real.log freq * markerSize) 60

/-- The grouping key of update_filtered_data's aggregation. -/
def placeKey (r : Place) : String × String × String :=
  (r.token, r.modern_name, r.feature_class)

/-- The grouping key read back from an aggregated row. -/
def aggKey (a : AggRow) : String × String × String :=
  (a.token, a.modern_name, a.feature_class)

/-- The aggregated output row of one group of update_filtered_data's
groupby: freq summed over the rows with the given key, dhlabid counted
distinct (nunique). -/
def aggRowFor (rows : List Place) (k : String × String × String) : AggRow :=
  { token := k.1
    modern_name := k.2.1
    feature_class := k.2.2
    total_mentions := ((rows.filter (fun r => decide (placeKey r = k))).map
      Place.freq).sum
    doc_count := (((rows.filter (fun r => decide (placeKey r = k))).map
      Place.dhlabid).dedup).length }

/-- The aggregation of update_filtered_data (src/sqlite_code.py lines
885-894): one output row per distinct (token, modern_name, feature_class)
key, freq summed into total_mentions, distinct dhlabids counted into
doc_count.  (The callback then sorts by total_mentions; the claims are
about the per-key totals, which the sort leaves untouched.) -/
def update_filtered_data_agg (rows : List Place) : List AggRow :=
  ((rows.map placeKey).dedup).map (aggRowFor rows)

/-- The timeline visualization-type strings of the timeline-type radio
items (src/sqlite_code.py lines 697-700). -/
def vizCumulative : String := "cumulative"

/-- The time-slice visualization type. -/
def vizSlice : String := "slice"

/-- Whether update_timeline_map keeps a mention (src/sqlite_code.py lines
1076-1086): cumulative keeps year ≤ current_year; the time-slice branch
keeps current_year - persistence + 1 ≤ year ≤ current_year. -/
def timeline_included (viz : String) (currentYear persistence year : ℤ) : Bool :=
  if viz = vizCumulative then decide (year ≤ currentYear)
  else decide (currentYear - persistence + 1 ≤ year) && decide (year ≤ currentYear)

/-- The marker opacity of update_timeline_map (src/sqlite_code.py lines
1102-1105): 1.0 in cumulative mode, otherwise
max(0.3, 1 - (current_year - year) / persistence), over exact rationals. -/
def timeline_opacity (viz : String) (currentYear persistence year : ℤ) : ℚ :=
  if viz = vizCumulative then 1
  else max (3/10) (1 - ((currentYear : ℚ) - (year : ℚ)) / (persistence : ℚ))

/-- app.py update_map's aggregation after the rank filter (lines 662-671):
groupby('name') with token/latitude/longitude/feature_class first, frekv
summed, dhlabid collected. -/
def aggregateByName (rows : List GeoPlace) : List AggPlace :=
  ((rows.map GeoPlace.name).dedup).map (fun nm =>
    let grp := rows.filter (fun r => decide (r.name = nm))
    { name := nm
      token := (grp.map GeoPlace.token).headD ""
      frekv := (grp.map GeoPlace.frekv).sum
      latitude := (grp.map GeoPlace.latitude).headD 0
      longitude := (grp.map GeoPlace.longitude).headD 0
      feature_class := (grp.map GeoPlace.feature_class).headD ""
      dhlabids := grp.map GeoPlace.dhlabid })

/-- update_map's mention processing (src/app.py lines 659-671): the
retrieved rows are narrowed to rank == 1 and then aggregated by name. -/
def update_map_all_places (places : List GeoPlace) : List AggPlace :=
  aggregateByName (places.filter (fun r => r.rank == 1))

/-- update_place_summary's statistics (src/app.py lines 709-717): rows are
narrowed to rank == 1; then total mention rows, summed frequency and
distinct names are computed. -/
def place_summary_stats (places : List GeoPlace) : ℕ × ℕ × ℕ :=
  let ps := places.filter (fun r => r.rank == 1)
  (ps.length, (ps.map GeoPlace.frekv).sum, ((ps.map GeoPlace.name).dedup).length)

/-- generate_heatmap's data points (src/app.py lines 756-764): rows are
narrowed to rank == 1 and mapped to (latitude, longitude, frekv); the
rendered weight is log1p of the third component, applied pointwise. -/
def heatmap_points (places : List GeoPlace) : List (ℚ × ℚ × ℕ) :=
  (places.filter (fun r => r.rank == 1)).map
    (fun r => (r.latitude, r.longitude, r.frekv))

/-- Concrete token for the aggregation scenario. -/
def krToken : String := "Kristiania"

/-- Modern name of the scenario token. -/
def krModern : String := "Oslo"

/-- Feature class P (populated places). -/
def pClass : String := "P"

/-- The two Kristiania mentions of the spec's aggregation scenario:
doc 1, frequencies 5 and 3, same coordinates and class. -/
def kristianiaRows : List Place :=
  [ { dhlabid := 1, token := krToken, modern_name := krModern, freq := 5,
      lat := some (599/10), lon := some (107/10), feature_class := pClass },
    { dhlabid := 1, token := krToken, modern_name := krModern, freq := 3,
      lat := some (599/10), lon := some (107/10), feature_class := pClass }]

/-- The single aggregated row the scenario expects. -/
def krAggRow : AggRow :=
  { token := krToken, modern_name := krModern, feature_class := pClass,
    total_mentions := 8, doc_count := 1 }

/-- A small concrete places relation for witnesses. -/
def examplePlacesDb : List Place :=
  [ { dhlabid := 1, token := krToken, modern_name := krModern, freq := 5,
      lat := some (599/10), lon := some (107/10), feature_class := pClass },
    { dhlabid := 2, token := "Bergen", modern_name := "Bergen", freq := 2,
      lat := some (604/10), lon := some (53/10), feature_class := pClass },
    { dhlabid := 3, token := krToken, modern_name := krModern, freq := 1,
      lat := some (599/10), lon := some (107/10), feature_class := pClass }]

/-- A concrete token list. -/
def exTokens : List String := [ krToken]

/-- A concrete cache key. -/
def exKey : String := "200_OpenStreetMap.Mapnik_3_[55, 15]_4"

/-- A concrete basemap id. -/
def exBasemap : String := "OpenStreetMap.Mapnik"

/-- A one-row aggregated place list (Oslo). -/
def cexPlaces1 : List AggPlace :=
  [ { name := krModern, token := krToken, frekv := 5, latitude := 59,
      longitude := 10, feature_class := pClass, dhlabids := [ 1] }]

/-- A different one-row aggregated place list (Bergen) of the same length. -/
def cexPlaces2 : List AggPlace :=
  [ { name := "Bergen", token := "Bergen", frekv := 5, latitude := 60,
      longitude := 5, feature_class := pClass, dhlabids := [ 1] }]

/-- Flattening the batches recovers the id list, for any batch size. -/
theorem chunkListAux_flatten {α : Type _} (n : ℕ) :
    ∀ (fuel : ℕ) (l : List α), l.length ≤ fuel →
      (chunkListAux n fuel l).flatten = l := by
  intro fuel
  induction fuel with
  | zero =>
    intro l hl
    cases l with
    | nil => rfl
    | cons x xs => simp at hl
  | succ fuel ih =>
    intro l hl
    cases l with
    | nil => rfl
    | cons x xs =>
      have hlen : (xs.drop (n - 1)).length ≤ fuel := by
        rw [List.length_drop]
        have hxs : xs.length ≤ fuel := by
          rw [List.length_cons] at hl
          omega
        omega
      show ((x :: xs.take (n - 1)) :: chunkListAux n fuel (xs.drop (n - 1))).flatten
        = x :: xs
      rw [List.flatten_cons, ih _ hlen, List.cons_append, List.take_append_drop]

/-- Flattening the batches of chunkList recovers the id list. -/
theorem chunkList_flatten {α : Type _} (n : ℕ) (l : List α) :
    (chunkList n l).flatten = l :=
  chunkListAux_flatten n l.length l le_rfl

/-- Every batch holds at most n ids (n positive). -/
theorem chunkListAux_mem_length {α : Type _} (n : ℕ) (hn : 1 ≤ n) :
    ∀ (fuel : ℕ) (l : List α) (c : List α), c ∈ chunkListAux n fuel l →
      c.length ≤ n := by
  intro fuel
  induction fuel with
  | zero =>
    intro l c hc
    cases l with
    | nil => simp [chunkListAux] at hc
    | cons x xs => simp [chunkListAux] at hc
  | succ fuel ih =>
    intro l c hc
    cases l with
    | nil => simp [chunkListAux] at hc
    | cons x xs =>
      have hstep : chunkListAux n (fuel + 1) (x :: xs)
          = (x :: xs.take (n - 1)) :: chunkListAux n fuel (xs.drop (n - 1)) := rfl
      rw [hstep] at hc
      rcases List.mem_cons.mp hc with h | h
      · subst h
        rw [List.length_cons, List.length_take]
        have : (n - 1) ⊓ xs.length ≤ n - 1 := inf_le_left
        omega
      · exact ih _ _ h

/-- A filter by a disjunction of two predicates no element satisfies at once
is a permutation of the two separate filters concatenated. -/
theorem filter_or_perm {α : Type _} (p q : α → Bool)
    (hpq : ∀ x, p x = true → q x = true → False) :
    ∀ db : List α, (db.filter (fun r => p r || q r)).Perm
      (db.filter p ++ db.filter q) := by
  intro db
  induction db with
  | nil => simp
  | cons x xs ih =>
    cases hp : p x <;> cases hq : q x
    · simp only [List.filter_cons, hp, hq, Bool.or_self, if_neg Bool.false_ne_true]
      exact ih
    · simp only [List.filter_cons, hp, hq, Bool.false_or, if_pos rfl,
        if_neg Bool.false_ne_true]
      exact (ih.cons x).trans List.perm_middle.symm
    · simp only [List.filter_cons, hp, hq, Bool.or_false, if_pos rfl,
        if_neg Bool.false_ne_true, List.cons_append]
      exact ih.cons x
    · exact (hpq x hp hq).elim

/-- Filtering rows by key membership batch-by-batch and concatenating is a
permutation of one filter by membership in the whole id list, whenever the
id list has no duplicate. -/
theorem chunkListAux_filter_perm {α : Type _} (rows : List α) (key : α → ℕ)
    (n : ℕ) :
    ∀ (fuel : ℕ) (l : List ℕ), l.length ≤ fuel → l.Nodup →
      (((chunkListAux n fuel l).map
          (fun c => rows.filter (fun r => decide (key r ∈ c)))).flatten).Perm
        (rows.filter (fun r => decide (key r ∈ l))) := by
  intro fuel
  induction fuel with
  | zero =>
    intro l hl _
    cases l with
    | nil => simp [chunkListAux]
    | cons x xs => simp at hl
  | succ fuel ih =>
    intro l hl hnd
    cases l with
    | nil => simp [chunkListAux]
    | cons x xs =>
      have hsplit : x :: xs = (x :: xs.take (n - 1)) ++ xs.drop (n - 1) := by
        rw [List.cons_append, List.take_append_drop]
      have hnd2 : ((x :: xs.take (n - 1)) ++ xs.drop (n - 1)).Nodup := by
        rw [← hsplit]; exact hnd
      rw [List.nodup_append] at hnd2
      obtain ⟨_, hndr, hdisj⟩ := hnd2
      have hlen : (xs.drop (n - 1)).length ≤ fuel := by
        rw [List.length_drop]
        have hxs : xs.length ≤ fuel := by
          rw [List.length_cons] at hl
          omega
        omega
      have hrec := ih (xs.drop (n - 1)) hlen hndr
      have hstep : chunkListAux n (fuel + 1) (x :: xs)
          = (x :: xs.take (n - 1)) :: chunkListAux n fuel (xs.drop (n - 1)) := rfl
      rw [hstep, List.map_cons, List.flatten_cons]
      have hdisj2 : ∀ r, decide (key r ∈ x :: xs.take (n - 1)) = true →
          decide (key r ∈ xs.drop (n - 1)) = true → False := by
        intro r h1 h2
        exact hdisj (of_decide_eq_true h1) (of_decide_eq_true h2)
      have hmain := filter_or_perm (fun r => decide (key r ∈ x :: xs.take (n - 1)))
        (fun r => decide (key r ∈ xs.drop (n - 1))) hdisj2 rows
      refine ((List.Perm.append_left _ hrec).trans hmain.symm).trans ?_
      have hcongr : rows.filter (fun r => (decide (key r ∈ x :: xs.take (n - 1))
            || decide (key r ∈ xs.drop (n - 1))))
          = rows.filter (fun r => decide (key r ∈ x :: xs)) := by
        apply List.filter_congr
        intro r _
        rw [← Bool.decide_or]
        apply decide_eq_decide.mpr
        constructor
        · intro h
          rw [hsplit]
          exact List.mem_append.mpr h
        · intro h
          rw [hsplit] at h
          exact List.mem_append.mp h
      rw [hcongr]

/-- Claim C1: for an id set (a duplicate-free id list), get_places_for_dhlabids
partitions the ids into batches of at most 499, issues one bounded query per
batch, and concatenates the per-batch rows; the result is, as a row multiset,
exactly what the idealized unbounded single query over the whole id set
returns — batching is transparent for any id-set size. -/
theorem places_batching_transparent (db : List Place) (ids : List ℕ)
    (h : ids.Nodup) :
    ((chunkList 499 ids).flatten = ids
      ∧ (∀ c ∈ chunkList 499 ids, c.length ≤ 499)
      ∧ (get_places_for_dhlabids db ids).2 = (chunkList 499 ids).length)
    ∧ ((get_places_for_dhlabids db ids).1).map (fun l => (l : Multiset Place))
        = some ((unbounded_places_query db ids : List Place) : Multiset Place) := by
  constructor
  · refine ⟨chunkList_flatten 499 ids, ?_, ?_⟩
    · intro c hc
      exact chunkListAux_mem_length 499 (by omega) ids.length ids c hc
    · cases ids with
      | nil => rfl
      | cons x xs =>
        have hne : (chunkList 499 (x :: xs)).isEmpty = false := rfl
        simp only [get_places_for_dhlabids, List.isEmpty_cons, Bool.false_eq_true,
          if_false, execute_batched_query, hne]
        simp
  · cases ids with
    | nil =>
      have h1 : unbounded_places_query db [] = [] := by
        simp [unbounded_places_query]
      simp [get_places_for_dhlabids, h1]
    | cons x xs =>
      have hne : (chunkList 499 (x :: xs)).isEmpty = false := rfl
      have hperm := chunkListAux_filter_perm db Place.dhlabid 499
        (x :: xs).length (x :: xs) le_rfl h
      simp only [get_places_for_dhlabids, List.isEmpty_cons, Bool.false_eq_true,
        if_false, execute_batched_query, hne]
      simp only [Nat.le_refl, if_true, Option.map_some]
      exact congrArg some (Multiset.coe_eq_coe.mpr hperm)

/-- Witness for claim C1: the hypotheses hold and the theorem applies at a
concrete database and a concrete duplicate-free id list. -/
theorem places_batching_transparent_witness :
    ([ 1, 2, 3] : List ℕ).Nodup
    ∧ (((chunkList 499 [ 1, 2, 3]).flatten = [ 1, 2, 3]
        ∧ (∀ c ∈ chunkList 499 [ 1, 2, 3], c.length ≤ 499)
        ∧ (get_places_for_dhlabids examplePlacesDb [ 1, 2, 3]).2
            = (chunkList 499 [ 1, 2, 3]).length)
      ∧ ((get_places_for_dhlabids examplePlacesDb [ 1, 2, 3]).1).map
            (fun l => (l : Multiset Place))
          = some ((unbounded_places_query examplePlacesDb [ 1, 2, 3]
              : List Place) : Multiset Place)) :=
  ⟨by decide, places_batching_transparent examplePlacesDb [ 1, 2, 3] (by decide)⟩

/-- A key absent from an association list is found after appending it. -/
theorem lookup_append_none {β : Type _} (k : String) (v : β) :
    ∀ (c : List (String × β)), c.lookup k = none →
      (c ++ [(k, v)]).lookup k = some v := by
  intro c
  induction c with
  | nil =>
    intro _
    simp [List.lookup]
  | cons a es ih =>
    intro h
    obtain ⟨a1, a2⟩ := a
    rw [List.cons_append]
    cases hk : (k == a1) with
    | true =>
      exfalso
      simp [List.lookup, hk] at h
    | false =>
      simp only [List.lookup, hk] at h ⊢
      exact ih h

/-- Claim C3: get_cached_map_html called twice with the same key, starting
from a cache where the key is absent, computes the artifact once (first call
invokes the render function exactly once, stores and returns its result),
and the second call returns the identical stored artifact without invoking
the render function and without changing the cache. -/
theorem cache_get_or_render (c0 : List (String × String)) (k : String)
    (fn : Unit → String) (h : c0.lookup k = none) :
    (getCachedMapHtml c0 k fn).1 = fn ()
    ∧ (getCachedMapHtml c0 k fn).2.2 = 1
    ∧ (getCachedMapHtml (getCachedMapHtml c0 k fn).2.1 k fn).1
        = (getCachedMapHtml c0 k fn).1
    ∧ (getCachedMapHtml (getCachedMapHtml c0 k fn).2.1 k fn).2.2 = 0
    ∧ (getCachedMapHtml (getCachedMapHtml c0 k fn).2.1 k fn).2.1
        = (getCachedMapHtml c0 k fn).2.1 := by
  have h1 : getCachedMapHtml c0 k fn = (fn (), c0 ++ [(k, fn ())], 1) := by
    simp [getCachedMapHtml, h]
  have h2 : (c0 ++ [(k, fn ())]).lookup k = some (fn ()) :=
    lookup_append_none k (fn ()) c0 h
  have h3 : getCachedMapHtml (c0 ++ [(k, fn ())]) k fn
      = (fn (), c0 ++ [(k, fn ())], 0) := by
    simp [getCachedMapHtml, h2]
  rw [h1]
  simp [h3]

/-- Witness for claim C3 at the empty cache and a concrete key and render
function. -/
theorem cache_get_or_render_witness :
    (([] : List (String × String)).lookup exKey = none)
    ∧ ((getCachedMapHtml [] exKey exampleRenderFn).1 = exampleRenderFn ()
      ∧ (getCachedMapHtml [] exKey exampleRenderFn).2.2 = 1
      ∧ (getCachedMapHtml (getCachedMapHtml [] exKey exampleRenderFn).2.1
            exKey exampleRenderFn).1
          = (getCachedMapHtml [] exKey exampleRenderFn).1
      ∧ (getCachedMapHtml (getCachedMapHtml [] exKey exampleRenderFn).2.1
            exKey exampleRenderFn).2.2 = 0
      ∧ (getCachedMapHtml (getCachedMapHtml [] exKey exampleRenderFn).2.1
            exKey exampleRenderFn).2.1
          = (getCachedMapHtml [] exKey exampleRenderFn).2.1) :=
  ⟨rfl, cache_get_or_render [] exKey exampleRenderFn rfl⟩

/-- Claim C4: whenever the entry count exceeds the fixed threshold 10, the
cleanup clears the whole cache in one step; hence a completed update_map
request always leaves at most 10 entries, and running eleven requests with
eleven distinct signatures from an empty cache ends with the cache fully
cleared (emptied at the eleventh insert, not evicted entry by entry). -/
theorem map_cache_bounded (c c2 : List (String × String)) (k : String)
    (fn : Unit → String) (h : 10 < c2.length) :
    clean_map_cache c2 = []
    ∧ (requestStep c k fn).length ≤ 10
    ∧ runRequests elevenKeys exampleRenderFn [] = [] := by
  refine ⟨by simp [clean_map_cache, h], ?_, by decide⟩
  by_cases h2 : 10 < (getCachedMapHtml c k fn).2.1.length
  · simp [requestStep, clean_map_cache, h2]
  · simp only [requestStep, clean_map_cache, if_neg h2]
    omega

/-- Witness for claim C4 at a concrete eleven-entry cache and a concrete
request. -/
theorem map_cache_bounded_witness :
    10 < elevenCache.length
    ∧ (clean_map_cache elevenCache = []
      ∧ (requestStep [] exKey exampleRenderFn).length ≤ 10
      ∧ runRequests elevenKeys exampleRenderFn [] = []) :=
  ⟨by decide, map_cache_bounded [] elevenCache exKey exampleRenderFn (by decide)⟩

/-- Claim C5: the aggregation of update_filtered_data yields one record per
distinct place identity (the grouping key: token, modern_name,
feature_class) — the output keys are duplicate-free and are exactly the
keys occurring in the input — with total_mentions the sum of the grouped
mentions' frequencies and doc_count the number of distinct contributing
document ids; in particular the two Kristiania mentions of document 1 with
frequencies 5 and 3 aggregate to the single row with total 8 and
document count 1. -/
theorem aggregation_totals_correct (rows : List Place) :
    ((update_filtered_data_agg rows).map aggKey).Nodup
    ∧ (∀ k, k ∈ (update_filtered_data_agg rows).map aggKey
        ↔ k ∈ rows.map placeKey)
    ∧ (∀ a ∈ update_filtered_data_agg rows,
        a.total_mentions = ((rows.filter
            (fun r => decide (placeKey r = aggKey a))).map Place.freq).sum
        ∧ a.doc_count = (((rows.filter
            (fun r => decide (placeKey r = aggKey a))).map
              Place.dhlabid).dedup).length)
    ∧ update_filtered_data_agg kristianiaRows = [ krAggRow] := by
  have hcomp : ∀ k : String × String × String, aggKey (aggRowFor rows k) = k := by
    intro k
    simp [aggKey, aggRowFor]
  have hmap : (update_filtered_data_agg rows).map aggKey
      = (rows.map placeKey).dedup := by
    unfold update_filtered_data_agg
    rw [List.map_map]
    calc ((rows.map placeKey).dedup).map (aggKey ∘ aggRowFor rows)
        = ((rows.map placeKey).dedup).map id := List.map_congr_left
          (fun k _ => hcomp k)
      _ = (rows.map placeKey).dedup := List.map_id _
  refine ⟨?_, ?_, ?_, ?_⟩
  · rw [hmap]
    exact List.nodup_dedup _
  · intro k
    rw [hmap, List.mem_dedup]
  · intro a ha
    unfold update_filtered_data_agg at ha
    obtain ⟨k, _, rfl⟩ := List.mem_map.mp ha
    rw [hcomp k]
    exact ⟨rfl, rfl⟩
  · decide

/-- Witness for claim C5 at the Kristiania scenario rows: the aggregated
row is in the output and carries the stated totals. -/
theorem aggregation_totals_correct_witness :
    krAggRow ∈ update_filtered_data_agg kristianiaRows
    ∧ (krAggRow.total_mentions = ((kristianiaRows.filter
        (fun r => decide (placeKey r = aggKey krAggRow))).map Place.freq).sum
      ∧ krAggRow.doc_count = (((kristianiaRows.filter
        (fun r => decide (placeKey r = aggKey krAggRow))).map
          Place.dhlabid).dedup).length) :=
  ⟨by decide, (aggregation_totals_correct kristianiaRows).2.2.1 krAggRow
    (by decide)⟩

/-- Claim C6 evaluated on the code: for EVERY nonempty id list and nonempty
token list, filter_by_places ends in the IndexError outcome with zero
queries issued — its two-slot base_query (token IN and dhlabid IN) is
formatted with the single placeholder string _execute_batched_query
supplies, so str.format raises on the first batch and no subset of the ids
is ever returned. -/
theorem filter_by_places_raises (db : List Place) (i : ℕ) (ids : List ℕ)
    (t : String) (ts : List String) :
    filter_by_places db (i :: ids) (t :: ts) = (none, 0) := by
  have hne : (chunkList 499 (i :: ids)).isEmpty = false := rfl
  simp [filter_by_places, execute_batched_query, hne]

/-- Claim C7 counterexample: filter_by_places with a nonempty id list and an
empty token list returns the input ids unchanged, not an empty result, so
the claimed short-circuit "to an empty result" is false for the token-set
edge case. -/
theorem filter_empty_tokens_returns_ids :
    (filter_by_places [] [ 5] []).1 = some [ 5]
    ∧ (filter_by_places [] [ 5] []).1 ≠ some [] := by
  refine ⟨rfl, ?_⟩
  decide

/-- Claim C7 as amended: placesForDocuments and metadataForDocuments with an
empty id set short-circuit to an empty result with zero queries; but
filterByPlaceTokens with an empty token set returns the input id list
unchanged (zero queries), and with an empty id set and nonempty tokens it
issues zero queries yet raises (KeyError on the column-less frame) instead
of returning an empty result. -/
theorem empty_input_shortcircuit (db : List Place) (mdb : List Doc)
    (ids : List ℕ) (t : String) (ts : List String) :
    get_places_for_dhlabids db [] = (some [], 0)
    ∧ get_metadata_for_dhlabids mdb [] = (some [], 0)
    ∧ filter_by_places db ids [] = (some ids, 0)
    ∧ filter_by_places db [] (t :: ts) = (none, 0) :=
  ⟨rfl, rfl, rfl, rfl⟩

/-- Claim C2 counterexample: two map-render requests whose canonical cache
signatures are equal (same row count, basemap, marker size, center, zoom)
but whose aggregated rows differ produce different rendered maps — the
signature does not capture the place rows themselves, which do affect the
rendered artifact. -/
theorem cache_key_collision :
    cache_key cexPlaces1 exBasemap 3 (some (55, 15)) (some 4)
      = cache_key cexPlaces2 exBasemap 3 (some (55, 15)) (some 4)
    ∧ renderMap cexPlaces1 [] exBasemap 3 (some (55, 15)) (some 4)
      ≠ renderMap cexPlaces2 [] exBasemap 3 (some (55, 15)) (some 4) := by
  refine ⟨rfl, ?_⟩
  decide

/-- Claim C2 as amended: the signature captures exactly the aggregate row
COUNT, basemap, marker-size factor, center and zoom — inputs agreeing on
those yield equal signatures — and the renderer is a pure function of its
inputs, so identical artifacts are guaranteed only when the aggregated rows
and metadata also agree; signature equality alone does not determine the
artifact. -/
theorem cache_key_determines_components (p1 p2 : List AggPlace)
    (c1 c2 : List Doc) (bm : String) (ms : ℕ) (ctr : Option (ℚ × ℚ))
    (zm : Option ℚ) (hlen : p1.length = p2.length) :
    cache_key p1 bm ms ctr zm = cache_key p2 bm ms ctr zm
    ∧ (p1 = p2 → c1 = c2 →
        renderMap p1 c1 bm ms ctr zm = renderMap p2 c2 bm ms ctr zm) := by
  constructor
  · unfold cache_key
    rw [hlen]
  · intro h1 h2
    rw [h1, h2]

/-- Witness for the amended claim C2 at two concrete equal-length place
lists. -/
theorem cache_key_determines_components_witness :
    cexPlaces1.length = cexPlaces2.length
    ∧ (cache_key cexPlaces1 exBasemap 3 (some (55, 15)) (some 4)
        = cache_key cexPlaces2 exBasemap 3 (some (55, 15)) (some 4)
      ∧ (cexPlaces1 = cexPlaces2 → ([] : List Doc) = [] →
          renderMap cexPlaces1 [] exBasemap 3 (some (55, 15)) (some 4)
            = renderMap cexPlaces2 [] exBasemap 3 (some (55, 15)) (some 4))) :=
  ⟨by decide, cache_key_determines_components cexPlaces1 cexPlaces2 [] []
    exBasemap 3 (some (55, 15)) (some 4) (by decide)⟩

/-- Claim C8: for window W ≥ 1, cumulative mode includes a mention iff its
document year is at most the current year and renders it at opacity 1;
time-slice mode includes it iff its year lies in [Y - W + 1, Y] and renders
it at opacity max(0.3, 1 - (Y - year)/W); with W = 5 the opacity is 1 at
year = Y and 0.3 at year = Y - 4. -/
theorem timeline_window_correct (Y W y : ℤ) (hW : 1 ≤ W) :
    (timeline_included vizCumulative Y W y = true ↔ y ≤ Y)
    ∧ timeline_opacity vizCumulative Y W y = 1
    ∧ (timeline_included vizSlice Y W y = true ↔ (Y - W + 1 ≤ y ∧ y ≤ Y))
    ∧ timeline_opacity vizSlice Y W y
        = max (3/10) (1 - ((Y : ℚ) - (y : ℚ)) / (W : ℚ))
    ∧ timeline_opacity vizSlice Y 5 Y = 1
    ∧ timeline_opacity vizSlice Y 5 (Y - 4) = 3/10 := by
  have hvs : ¬ (vizSlice = vizCumulative) := by
    simp [vizSlice, vizCumulative]
  refine ⟨?_, ?_, ?_, ?_, ?_, ?_⟩
  · simp [timeline_included]
  · simp [timeline_opacity]
  · simp [timeline_included, hvs]
  · simp [timeline_opacity, hvs]
  · simp only [timeline_opacity, if_neg hvs]
    rw [show ((Y : ℚ) - (Y : ℚ)) = 0 by ring]
    norm_num
  · simp only [timeline_opacity, if_neg hvs]
    rw [show ((Y : ℚ) - ((Y - 4 : ℤ) : ℚ)) = 4 by push_cast; ring]
    rw [show (1 : ℚ) - 4 / ((5 : ℤ) : ℚ) = 1/5 by norm_num]
    rw [max_eq_left (by norm_num)]

/-- Witness for claim C8 at current year 1900, window 5, document year
1896. -/
theorem timeline_window_correct_witness :
    (1 : ℤ) ≤ 5
    ∧ ((timeline_included vizCumulative 1900 5 1896 = true ↔ (1896 : ℤ) ≤ 1900)
      ∧ timeline_opacity vizCumulative 1900 5 1896 = 1
      ∧ (timeline_included vizSlice 1900 5 1896 = true
          ↔ ((1900 : ℤ) - 5 + 1 ≤ 1896 ∧ (1896 : ℤ) ≤ 1900))
      ∧ timeline_opacity vizSlice 1900 5 1896
          = max (3/10) (1 - (((1900 : ℤ) : ℚ) - ((1896 : ℤ) : ℚ)) / ((5 : ℤ) : ℚ))
      ∧ timeline_opacity vizSlice 1900 5 1900 = 1
      ∧ timeline_opacity vizSlice 1900 5 (1900 - 4) = 3/10) :=
  ⟨by decide, timeline_window_correct 1900 5 1896 (by decide)⟩

/-- Claim C9: for every frequency at least 1 and marker-size factor at least
0, the computed marker radius min(6 + log(frequency)*markerSizeFactor, 60)
lies in [6, 60]. -/
theorem marker_radius_bounds (f m : ℝ) (hf : 1 ≤ f) (hm : 0 ≤ m) :
    6 ≤ marker_radius f m ∧ marker_radius f m ≤ 60 := by
  constructor
  · apply le_min
    · have h1 : 0 ≤ Real.log f := Real.log_nonneg hf
      nlinarith
    · norm_num
  · exact min_le_right _ _

/-- Witness for claim C9 at frequency 1 and marker-size factor 0. -/
theorem marker_radius_bounds_witness :
    (1 : ℝ) ≤ 1 ∧ (0 : ℝ) ≤ 0
    ∧ (6 ≤ marker_radius 1 0 ∧ marker_radius 1 0 ≤ 60) :=
  ⟨le_refl 1, le_refl 0, marker_radius_bounds 1 0 (le_refl 1) (le_refl 0)⟩

/-- Claim C10: in the app.py pipeline every mention row feeding the rendered
map aggregation, the place summary or the heatmap has rank 1 (the kept rows
all satisfy rank == 1), and each of the three outputs is unchanged when the
input is already narrowed to its rank-1 rows — mentions of any other rank
never influence them. -/
theorem rank_one_only (places : List GeoPlace) :
    ((places.filter (fun r => r.rank == 1)).all (fun r => r.rank == 1)) = true
    ∧ update_map_all_places places
        = update_map_all_places (places.filter (fun r => r.rank == 1))
    ∧ place_summary_stats places
        = place_summary_stats (places.filter (fun r => r.rank == 1))
    ∧ heatmap_points places
        = heatmap_points (places.filter (fun r => r.rank == 1)) := by
  have hidem : (places.filter (fun r => r.rank == 1)).filter
      (fun r => r.rank == 1) = places.filter (fun r => r.rank == 1) := by
    rw [List.filter_filter]
    apply List.filter_congr
    intro a _
    rw [Bool.and_self]
  refine ⟨?_, ?_, ?_, ?_⟩
  · rw [List.all_eq_true]
    intro r hr
    exact (List.mem_filter.mp hr).2
  · unfold update_map_all_places
    rw [hidem]
  · unfold place_summary_stats
    rw [hidem]
  · unfold heatmap_points
    rw [hidem]
